import Mathlib

/-!
Verification development for the security core of the meditech backend:
the field-level encryption codec (`EncryptionService`), the audit trail
(`AuditService` / `AuditInterceptor`) and the credential / token service
(`AuthService`).

Modelling conventions:
- JavaScript strings are modelled as `List Char`; byte buffers as `List Nat`
  with each element `< 256` stated explicitly where it matters.
- Timestamps are naturals counting milliseconds.
- `async` methods are modelled as pure state transformers; a thrown
  exception is the `.error` branch of an `Except String` result carrying the
  exception's message text.
- Node's `crypto` cipher primitive (AES-256-CBC via
  `createCipheriv`/`createDecipheriv`) is an external library; it is
  modelled abstractly as a `CBCCipher` bundle whose fields state the
  documented contract of the primitive (byte-valued output, decryption
  inverts encryption under the same key and IV).  Everything written by the
  repository itself (hex/colon token format, error funnelling, the falsy
  short-circuits) is translated directly from
  `src/common/encryption/encryption.service.ts`.
-/

namespace Meditech

/-! ### Hex encoding and character splitting, mirroring Node's `Buffer` hex
conversions and `String.prototype.split` with a one-character separator. -/

def hexDigits : List Char := "0123456789abcdef".toList

def hexDigit (n : Nat) : Char := hexDigits.getD n '0'

/-- Value of one hex character, accepting both cases as Node does. -/
def hexVal (c : Char) : Option Nat :=
  match hexDigits.findIdx? (fun d => d = c) with
  | some i => some i
  | none =>
    match ("ABCDEF".toList.findIdx? (fun d => d = c)) with
    | some i => some (10 + i)
    | none => none

/-- Node's `buf.toString('hex')`: two lowercase hex characters per byte. -/
def hexEncode : List Nat → List Char
  | [] => []
  | b :: rest => hexDigit (b / 16) :: hexDigit (b % 16) :: hexEncode rest

/-- Node's `Buffer.from(s, 'hex')`: decode full pairs of hex digits,
stopping silently at the first invalid or incomplete pair. -/
def hexDecodePairs : List Char → List Nat
  | a :: b :: rest =>
    match hexVal a, hexVal b with
    | some hi, some lo => (16 * hi + lo) :: hexDecodePairs rest
    | _, _ => []
  | _ => []

/-- JavaScript `str.split(sep)` for a single-character separator: always
returns at least one (possibly empty) segment. -/
def splitOnChar (sep : Char) : List Char → List (List Char)
  | [] => [[]]
  | c :: rest =>
    match splitOnChar sep rest with
    | [] => [[]]
    | seg :: segs =>
      if c = sep then [] :: seg :: segs else (c :: seg) :: segs

/-! ### Encryption codec (`EncryptionService`) -/

/-- Abstract interface of Node's AES-256-CBC primitive
(`createCipheriv` / `createDecipheriv` with `update`/`final`).  The fields
record the library's documented contract: ciphertext is a byte sequence, and
decrypting with the key and IV used for encryption recovers the plaintext.
`decBlocks` returns `none` when cipher verification (padding check) fails. -/
structure CBCCipher where
  encBlocks : List Nat → List Nat → List Nat → List Nat
  decBlocks : List Nat → List Nat → List Nat → Option (List Nat)
  encBytes : ∀ key iv data, (∀ b ∈ data, b < 256) →
    ∀ b ∈ encBlocks key iv data, b < 256
  decEnc : ∀ key iv data, decBlocks key iv (encBlocks key iv data) = some data

namespace EncryptionService

/-- Translation of `EncryptionService.encrypt`.  `data` is the plaintext's
utf8 byte sequence and `iv` the 16 random bytes drawn by
`crypto.randomBytes(16)`, passed explicitly.  A falsy (empty) input is
returned unchanged; `createCipheriv` rejects a key that is not 32 bytes or
an IV that is not 16 bytes, and the surrounding catch rethrows any failure
as the generic message `Data encryption failed`. -/
def encrypt (c : CBCCipher) (encryptionKey iv data : List Nat) :
    Except String (List Char) :=
  if data = [] then .ok []
  else if encryptionKey.length = 32 ∧ iv.length = 16 then
    .ok (hexEncode iv ++ ':' :: hexEncode (c.encBlocks encryptionKey iv data))
  else .error "Data encryption failed"

/-- Body of the `try` block of `EncryptionService.decrypt`: split on `:`,
require exactly two segments, hex-decode both, run the decipher.  Each
`.error` is a thrown exception that the surrounding catch will replace. -/
def decryptTry (c : CBCCipher) (encryptionKey : List Nat) (tok : List Char) :
    Except String (List Nat) :=
  let parts := splitOnChar ':' tok
  if parts.length ≠ 2 then .error "Invalid encrypted data format"
  else
    let iv := hexDecodePairs (parts.getD 0 [])
    let encrypted := hexDecodePairs (parts.getD 1 [])
    if encryptionKey.length = 32 ∧ iv.length = 16 then
      match c.decBlocks encryptionKey iv encrypted with
      | some plain => .ok plain
      | none => .error "bad decrypt"
    else .error "Invalid key or iv length"

/-- Translation of `EncryptionService.decrypt`: a falsy (empty) token is
returned unchanged; otherwise any exception from the `try` block —
including the malformed-format error — is caught and replaced by the
generic `Data decryption failed` error. -/
def decrypt (c : CBCCipher) (encryptionKey : List Nat) (tok : List Char) :
    Except String (List Nat) :=
  if tok = [] then .ok []
  else
    match decryptTry c encryptionKey tok with
    | .ok plain => .ok plain
    | .error _ => .error "Data decryption failed"

end EncryptionService

/-- Concrete cipher instance used for witnesses: prepends a marker byte so
that decryption can also fail (on byte lists not produced by encryption). -/
def markCipher : CBCCipher where
  encBlocks := fun _ _ data => 1 :: data
  decBlocks := fun _ _ cdata =>
    match cdata with
    | 1 :: rest => some rest
    | _ => none
  encBytes := by
    intro key iv data hdata b hb
    rcases List.mem_cons.mp hb with rfl | hb2
    · norm_num
    · exact hdata b hb2
  decEnc := by intro key iv data; rfl

/-! ### Audit trail (`AuditService` and `AuditInterceptor`) -/

/-- Prisma enum `AuditAction`. -/
inductive AuditAction
  | CREATE | READ | UPDATE | DELETE | LOGIN | LOGOUT | EXPORT | PRINT
deriving DecidableEq

/-- Argument record of `AuditService.createAuditLog` (`AuditLogData`);
optional fields absent at a call site are `none`.  `oldValues`/`newValues`
carry the already-serialized JSON text. -/
structure AuditLogData where
  userId : Option Nat := none
  action : AuditAction
  resource : String
  resourceId : Option String := none
  phiAccessed : Option Bool := none
  patientId : Option String := none
  ipAddress : String
  userAgent : Option String := none
  endpoint : String
  method : String
  oldValues : Option String := none
  newValues : Option String := none
  success : Option Bool := none
  errorMessage : Option String := none
deriving DecidableEq

/-- Persisted `auditLog` row as built by `createAuditLog`. -/
structure AuditRow where
  userId : Option Nat
  action : AuditAction
  resource : String
  resourceId : Option String
  phiAccessed : Bool
  patientId : Option String
  ipAddress : String
  userAgent : Option String
  endpoint : String
  method : String
  oldValues : Option String
  newValues : Option String
  success : Bool
  errorMessage : Option String
deriving DecidableEq

/-- Row construction inside `createAuditLog`:
`phiAccessed: data.phiAccessed || false` and
`success: data.success !== false`. -/
def auditRowOf (d : AuditLogData) : AuditRow :=
  { userId := d.userId, action := d.action, resource := d.resource,
    resourceId := d.resourceId,
    phiAccessed := d.phiAccessed.getD false,
    patientId := d.patientId, ipAddress := d.ipAddress,
    userAgent := d.userAgent, endpoint := d.endpoint, method := d.method,
    oldValues := d.oldValues, newValues := d.newValues,
    success := d.success != some false,
    errorMessage := d.errorMessage }

namespace AuditService

/-- Translation of `AuditService.createAuditLog`.  The prisma write may
fail (`writeOk = false`); the catch block swallows the failure, leaves the
audit log unwritten and emits only an operational logger message (second
component).  The function is total: no failure is ever rethrown. -/
def createAuditLog (writeOk : Bool) (log : List AuditRow) (d : AuditLogData) :
    List AuditRow × Option String :=
  if writeOk then (log ++ [auditRowOf d], none)
  else (log, some "Failed to create audit log")

end AuditService

namespace AuditInterceptor

/-- Request context as read by `AuditInterceptor.intercept`:
`const { user, method, url, ip, headers } = request`. -/
structure RequestCtx where
  user : Option Nat
  method : String
  url : String
  ip : String
  userAgent : String
deriving DecidableEq

/-- The `actionMap` lookup with fallback `AuditAction.READ`. -/
def actionFor (method : String) : AuditAction :=
  if method = "GET" then .READ
  else if method = "POST" then .CREATE
  else if method = "PUT" then .UPDATE
  else if method = "PATCH" then .UPDATE
  else if method = "DELETE" then .DELETE
  else .READ

/-- The resource extraction `url.split('/').filter(Boolean)[2] || 'Unknown'`. -/
def pathParts (url : String) : List String :=
  ((splitOnChar '/' url.toList).map (fun l => String.mk l)).filter (fun s => s ≠ "")

def resourceOf (url : String) : String := (pathParts url).getD 2 "Unknown"

/-- Translation of `AuditInterceptor.intercept`.  The business handler's
outcome is `handlerResult`; on either outcome, when `request.user` is
present one `createAuditLog` call is fired (its own failure only hits the
`.catch` logger and is dropped), and the handler outcome is passed through
— an error is rethrown to the client unchanged.  No call sets
`phiAccessed`, so the stored row always carries the `false` default. -/
def intercept (ctx : RequestCtx) (handlerResult : Except String Unit)
    (writeOk : Bool) (log : List AuditRow) :
    Except String Unit × List AuditRow :=
  let action := actionFor ctx.method
  let resource := resourceOf ctx.url
  match handlerResult, ctx.user with
  | .ok r, some uid =>
    (.ok r, (AuditService.createAuditLog writeOk log
      { userId := some uid, action := action, resource := resource,
        ipAddress := ctx.ip, userAgent := some ctx.userAgent,
        endpoint := ctx.url, method := ctx.method,
        success := some true }).1)
  | .ok r, none => (.ok r, log)
  | .error e, some uid =>
    (.error e, (AuditService.createAuditLog writeOk log
      { userId := some uid, action := action, resource := resource,
        ipAddress := ctx.ip, userAgent := some ctx.userAgent,
        endpoint := ctx.url, method := ctx.method,
        success := some false, errorMessage := some e }).1)
  | .error e, none => (.error e, log)

/-- The audit payload of the interceptor's success branch. -/
def okBranchData (ctx : RequestCtx) (uid : Nat) : AuditLogData :=
  { userId := some uid, action := actionFor ctx.method,
    resource := resourceOf ctx.url, ipAddress := ctx.ip,
    userAgent := some ctx.userAgent, endpoint := ctx.url,
    method := ctx.method, success := some true }

/-- The audit payload of the interceptor's failure branch. -/
def errBranchData (ctx : RequestCtx) (uid : Nat) (e : String) : AuditLogData :=
  { userId := some uid, action := actionFor ctx.method,
    resource := resourceOf ctx.url, ipAddress := ctx.ip,
    userAgent := some ctx.userAgent, endpoint := ctx.url,
    method := ctx.method, success := some false, errorMessage := some e }

end AuditInterceptor

/-! ### Credential / token service (`AuthService`), record store and cache -/

/-- Prisma enum `UserRole`. -/
inductive UserRole
  | PATIENT | DOCTOR | NURSE | RECEPTIONIST | PHARMACIST
  | LAB_TECHNICIAN | ADMIN | SUPER_ADMIN
deriving DecidableEq

/-- Prisma enum `UserStatus`. -/
inductive UserStatus
  | ACTIVE | INACTIVE | SUSPENDED | PENDING_VERIFICATION
deriving DecidableEq

/-- The `user` row fields touched by the auth flows. -/
structure UserRec where
  id : Nat
  email : String
  password : String
  role : UserRole
  status : UserStatus
  failedLoginAttempts : Nat
  accountLockedUntil : Option Nat
  lastLogin : Option Nat
deriving DecidableEq

structure PatientRec where
  id : Nat
  userId : Nat
deriving DecidableEq

structure DoctorRec where
  id : Nat
  userId : Nat
  licenseNumber : String
  specialization : String
  experience : Nat
  consultationFee : Nat
deriving DecidableEq

/-- The `refreshToken` row. -/
structure RefreshTokenRec where
  id : Nat
  token : String
  userId : Nat
  expiresAt : Nat
  revokedAt : Option Nat
  replacedBy : Option String
deriving DecidableEq

/-- Relational store state visible to the auth flows; `nextId` supplies
fresh row ids. -/
structure AuthState where
  users : List UserRec
  patients : List PatientRec
  doctors : List DoctorRec
  refreshTokens : List RefreshTokenRec
  nextId : Nat
deriving DecidableEq

/-- A key written to the shared cache. -/
structure CacheEntry where
  key : String
  value : String
  ttlSeconds : Option Nat
deriving DecidableEq

namespace RedisService

/-- Translation of `RedisService.set`: a truthy ttl selects `SETEX`
(expiring entry), otherwise a plain `SET` with no expiry; the stored value
is the JSON serialization. -/
def set (key : String) (value : String) (ttl : Option Nat) : CacheEntry :=
  match ttl with
  | some t => if t ≠ 0 then { key := key, value := value, ttlSeconds := some t }
              else { key := key, value := value, ttlSeconds := none }
  | none => { key := key, value := value, ttlSeconds := none }

end RedisService

/-- Ceiling division on naturals, the value of `Math.ceil(a / b)` for
nonnegative integer `a` and positive integer `b`. -/
def ceilDiv (a b : Nat) : Nat := (a + b - 1) / b

namespace AuthService

/-- Prisma `user.findUnique({ where: { email } })`. -/
def findUserByEmail (st : AuthState) (email : String) : Option UserRec :=
  st.users.find? (fun u => u.email = email)

/-- Prisma `user.update({ where: { id } })`: `id` is the unique key. -/
def updateUser (st : AuthState) (uid : Nat) (f : UserRec → UserRec) : AuthState :=
  { st with users := st.users.map (fun u => if u.id = uid then f u else u) }

structure TokenPair where
  accessToken : String
  refreshToken : String
deriving DecidableEq

/-- The refresh-token row persisted by `generateTokens`. -/
def mintedRecord (now : Nat) (newRefresh : String) (userId nextId : Nat) :
    RefreshTokenRec :=
  { id := nextId, token := newRefresh, userId := userId,
    expiresAt := now + 7 * 24 * 60 * 60 * 1000,
    revokedAt := none, replacedBy := none }

/-- Translation of `AuthService.generateTokens`.  The JWT signatures are
produced by the external `jwtService`; the two signed values are passed in
as `newAccess` / `newRefresh`.  The refresh token value is persisted with a
seven-day expiry (`expirationDate.setDate(getDate() + 7)`), and any pair is
only returned together with the persisted record. -/
def generateTokens (now : Nat) (newAccess newRefresh : String) (userId : Nat)
    (st : AuthState) : TokenPair × AuthState :=
  ({ accessToken := newAccess, refreshToken := newRefresh },
   { st with refreshTokens := st.refreshTokens ++ [mintedRecord now newRefresh userId st.nextId],
             nextId := st.nextId + 1 })

structure RegisterOk where
  message : String
  userId : Nat
deriving DecidableEq

/-- First store write of `AuthService.register`: `prisma.user.create` with
status `PENDING_VERIFICATION` and the bcrypt hash of the password (bcrypt
is external, passed as `hash`). -/
def registerUserCreate (hash : String → String) (email password : String)
    (role : UserRole) (st : AuthState) : UserRec × AuthState :=
  let u : UserRec :=
    { id := st.nextId, email := email, password := hash password, role := role,
      status := .PENDING_VERIFICATION, failedLoginAttempts := 0,
      accountLockedUntil := none, lastLogin := none }
  (u, { st with users := st.users ++ [u], nextId := st.nextId + 1 })

/-- Second store write of `AuthService.register`: the role-conditional
profile stub (`prisma.patient.create` / `prisma.doctor.create`); roles
other than PATIENT and DOCTOR provision nothing. -/
def registerProfileCreate (role : UserRole) (userId : Nat) (st : AuthState) :
    AuthState :=
  match role with
  | .PATIENT =>
    { st with patients := st.patients ++ [{ id := st.nextId, userId := userId }],
              nextId := st.nextId + 1 }
  | .DOCTOR =>
    let d : DoctorRec :=
      { id := st.nextId, userId := userId,
        licenseNumber := "TEMP-" ++ toString userId,
        specialization := "General", experience := 0, consultationFee := 0 }
    { st with doctors := st.doctors ++ [d], nextId := st.nextId + 1 }
  | _ => st

/-- Translation of `AuthService.register`: duplicate-email check, then the
credential insert and the profile insert as two separate awaited store
writes (the source wraps them in no transaction). -/
def register (hash : String → String) (email password : String)
    (role : UserRole) (st : AuthState) : Except String RegisterOk × AuthState :=
  match findUserByEmail st email with
  | some _ => (.error "User with this email already exists", st)
  | none =>
    let p := registerUserCreate hash email password role st
    let st2 := registerProfileCreate role p.1.id p.2
    (.ok { message := "Registration successful. Please check your email for verification.",
           userId := p.1.id }, st2)

/-- Store states observable during `register`, one per completed store
write: the initial state, the state after the credential insert, and the
state after the profile insert.  Because the two inserts are separate
round-trips, each of these is a reachable store state. -/
def registerStates (hash : String → String) (email password : String)
    (role : UserRole) (st : AuthState) : List AuthState :=
  match findUserByEmail st email with
  | some _ => [st]
  | none =>
    let p := registerUserCreate hash email password role st
    [st, p.2, registerProfileCreate role p.1.id p.2]

structure LoginOk where
  userId : Nat
  email : String
  role : UserRole
  status : UserStatus
  accessToken : String
  refreshToken : String
deriving DecidableEq

/-- Password check and tail of `AuthService.login`, after the status and
lockout gates have passed.  On mismatch the counter update is computed from
the snapshot read at lookup (`user.failedLoginAttempts + 1`) and the lock
is set when that value reaches 5; on match the counter and lock are reset,
`lastLogin` is stamped and a token pair is minted. -/
def loginVerifyStep (verify : String → String → Bool) (now : Nat)
    (newAccess newRefresh : String) (password : String) (user : UserRec)
    (st : AuthState) : Except String LoginOk × AuthState :=
  if verify password user.password = false then
    let failedAttempts := user.failedLoginAttempts + 1
    let st1 := updateUser st user.id (fun u =>
      if failedAttempts ≥ 5 then
        { u with failedLoginAttempts := failedAttempts,
                 accountLockedUntil := some (now + 30 * 60 * 1000) }
      else { u with failedLoginAttempts := failedAttempts })
    (.error "Invalid credentials", st1)
  else
    let st1 := updateUser st user.id (fun u =>
      { u with failedLoginAttempts := 0, accountLockedUntil := none,
               lastLogin := some now })
    let p := generateTokens now newAccess newRefresh user.id st1
    (.ok { userId := user.id, email := user.email, role := user.role,
           status := user.status, accessToken := p.1.accessToken,
           refreshToken := p.1.refreshToken }, p.2)

/-- Translation of `AuthService.login`: user lookup by email, status
gates, lockout gate with the remaining-minutes message
(`Math.ceil((accountLockedUntil - now) / 1000 / 60)`), then the password
step. -/
def login (verify : String → String → Bool) (now : Nat)
    (newAccess newRefresh : String) (email password : String)
    (st : AuthState) : Except String LoginOk × AuthState :=
  match findUserByEmail st email with
  | none => (.error "Invalid credentials", st)
  | some user =>
    if user.status = .SUSPENDED then (.error "Account has been suspended", st)
    else if user.status = .INACTIVE then (.error "Account is inactive", st)
    else
      match user.accountLockedUntil with
      | some lockedUntil =>
        if now < lockedUntil then
          (.error ("Account is locked. Try again in " ++
            toString (ceilDiv (lockedUntil - now) 60000) ++ " minutes."), st)
        else loginVerifyStep verify now newAccess newRefresh password user st
      | none => loginVerifyStep verify now newAccess newRefresh password user st

structure LogoutResult where
  message : String
  state : AuthState
  cache : CacheEntry
deriving DecidableEq

/-- Translation of `AuthService.logout`:
`refreshToken.updateMany({ where: { userId, token } })` stamps `revokedAt`
on the rows matching both the user id and the presented token value, then a
denylist marker is cached for one hour. -/
def logout (now : Nat) (userId : Nat) (refreshToken : String) (st : AuthState) :
    LogoutResult :=
  { message := "Logout successful",
    state := { st with refreshTokens := st.refreshTokens.map (fun t =>
        if t.userId = userId ∧ t.token = refreshToken then
          { t with revokedAt := some now } else t) },
    cache := RedisService.set ("blacklist:" ++ toString userId) "true" (some 3600) }

/-- Translation of `AuthService.refreshTokens`: look the record up by the
unique token value; reject when absent, revoked or past expiry; otherwise
mint a new pair (persisting the new record) and then update the old record,
setting `revokedAt` and `replacedBy` in the same store write. -/
def refreshTokens (now : Nat) (presented : String) (newAccess newRefresh : String)
    (st : AuthState) : Except String TokenPair × AuthState :=
  match st.refreshTokens.find? (fun t => t.token = presented) with
  | none => (.error "Invalid or expired refresh token", st)
  | some tokenRecord =>
    if tokenRecord.revokedAt.isSome ∨ tokenRecord.expiresAt < now then
      (.error "Invalid or expired refresh token", st)
    else
      let p := generateTokens now newAccess newRefresh tokenRecord.userId st
      let st2 := { p.2 with refreshTokens := p.2.refreshTokens.map (fun t =>
          if t.id = tokenRecord.id then
            { t with revokedAt := some now, replacedBy := some p.1.refreshToken }
          else t) }
      (.ok p.1, st2)

end AuthService

/-! ### Concrete instances used by witnesses and counterexamples -/

def key32 : List Nat := List.replicate 32 0

def ivA : List Nat := List.replicate 16 0

def ivB : List Nat := 1 :: List.replicate 15 0

/-- A syntactically well-formed two-segment token whose cipher
verification fails under `markCipher`. -/
def badTok : List Char := hexEncode ivA ++ ':' :: ['0', '0']

/-- A GET request by an authenticated user against the patients endpoint —
patient-scoped data, hence PHI-linked. -/
def phiCtx : AuditInterceptor.RequestCtx :=
  { user := some 7, method := "GET", url := "/api/v1/patients/123",
    ip := "10.0.0.1", userAgent := "agent" }

/-- A concrete audit payload for witness instantiations. -/
def sampleAuditData : AuditLogData :=
  { action := .READ, resource := "patients", ipAddress := "10.0.0.1",
    endpoint := "/api/v1/patients/123", method := "GET" }

def tokRec1 : RefreshTokenRec :=
  { id := 0, token := "t1", userId := 1, expiresAt := 1000,
    revokedAt := none, replacedBy := none }

def tokRec2 : RefreshTokenRec :=
  { id := 1, token := "t2", userId := 1, expiresAt := 1000,
    revokedAt := none, replacedBy := none }

/-- A store holding two live refresh tokens of the same identity. -/
def twoTokState : AuthState :=
  { users := [], patients := [], doctors := [], refreshTokens := [tokRec1, tokRec2],
    nextId := 2 }

/-- A store holding one live refresh token. -/
def oneTokState : AuthState :=
  { users := [], patients := [], doctors := [], refreshTokens := [tokRec1],
    nextId := 2 }

def emptyState : AuthState :=
  { users := [], patients := [], doctors := [], refreshTokens := [], nextId := 0 }

/-- The credential row inserted by the first store write of
`register("doc@example.com", "Secure1!@", DOCTOR)` on an empty store, with
the identity hash function standing in for bcrypt. -/
def regUserDoc : UserRec :=
  { id := 0, email := "doc@example.com", password := "Secure1!@", role := .DOCTOR,
    status := .PENDING_VERIFICATION, failedLoginAttempts := 0,
    accountLockedUntil := none, lastLogin := none }

/-- A store holding exactly one user row. -/
def oneUserState (u : UserRec) (n : Nat) : AuthState :=
  { users := [u], patients := [], doctors := [], refreshTokens := [], nextId := n }

/-- A concrete user for witness instantiations. -/
def aliceUser : UserRec :=
  { id := 3, email := "alice@example.com", password := "hash-alice",
    role := .PATIENT, status := .ACTIVE, failedLoginAttempts := 0,
    accountLockedUntil := none, lastLogin := none }

/-- A password checker for witness instantiations: string equality with the
stored value. -/
def eqVerify : String → String → Bool := fun presented stored => presented = stored

/-- A concrete user with four failed attempts and an expired lockout. -/
def aliceLocked4 : UserRec :=
  { id := 3, email := "alice@example.com", password := "hash-alice",
    role := .PATIENT, status := .ACTIVE, failedLoginAttempts := 4,
    accountLockedUntil := some 50, lastLogin := none }

/-- The store after a successful login on `oneUserState u n` at time `t`
with refresh token value `r`: counter reset, lock cleared, last login
stamped, refresh token persisted. -/
def afterLoginState (u : UserRec) (n t : Nat) (r : String) : AuthState :=
  { users := [{ u with failedLoginAttempts := 0, accountLockedUntil := none, lastLogin := some t }],
    patients := [], doctors := [],
    refreshTokens := [AuthService.mintedRecord t r u.id n], nextId := n + 1 }

/-! ### Supporting lemmas -/

theorem hexDigit_mem (n : Nat) : hexDigit n ∈ hexDigits := by
  unfold hexDigit
  rcases Nat.lt_or_ge n hexDigits.length with h | h
  · exact List.getD_eq_getElem hexDigits '0' h ▸ hexDigits.getElem_mem h
  · rw [List.getD_eq_default _ _ h]; decide

theorem hexDigit_ne_colon (n : Nat) : hexDigit n ≠ ':' := by
  have h := hexDigit_mem n
  intro heq
  rw [heq] at h
  simp [hexDigits] at h

theorem colon_not_mem_hexEncode (l : List Nat) : ':' ∉ hexEncode l := by
  induction l with
  | nil => simp [hexEncode]
  | cons b rest ih =>
    simp only [hexEncode, List.mem_cons, not_or]
    exact ⟨fun h => hexDigit_ne_colon _ h.symm, fun h => hexDigit_ne_colon _ h.symm, ih⟩

theorem hexVal_hexDigit (n : Nat) (h : n < 16) : hexVal (hexDigit n) = some n := by
  interval_cases n <;> decide

theorem hexDecodePairs_hexEncode (l : List Nat) (h : ∀ b ∈ l, b < 256) :
    hexDecodePairs (hexEncode l) = l := by
  induction l with
  | nil => rfl
  | cons b rest ih =>
    have hb : b < 256 := h b (List.mem_cons_self ..)
    have hhi : b / 16 < 16 := Nat.div_lt_of_lt_mul hb
    have hlo : b % 16 < 16 := Nat.mod_lt _ (by norm_num)
    simp only [hexEncode, hexDecodePairs, hexVal_hexDigit _ hhi, hexVal_hexDigit _ hlo]
    rw [ih (fun x hx => h x (List.mem_cons_of_mem _ hx))]
    congr 1
    omega

theorem hexEncode_length (l : List Nat) : (hexEncode l).length = 2 * l.length := by
  induction l with
  | nil => rfl
  | cons b rest ih => simp [hexEncode, ih]; ring

theorem hexEncode_injOn (a b : List Nat) (ha : ∀ x ∈ a, x < 256) (hb : ∀ x ∈ b, x < 256)
    (h : hexEncode a = hexEncode b) : a = b := by
  have := congrArg hexDecodePairs h
  rwa [hexDecodePairs_hexEncode a ha, hexDecodePairs_hexEncode b hb] at this

theorem splitOnChar_ne_nil (sep : Char) (l : List Char) : splitOnChar sep l ≠ [] := by
  cases l with
  | nil => simp [splitOnChar]
  | cons c rest =>
    simp only [splitOnChar]
    rcases hsplit : splitOnChar sep rest with _ | ⟨seg, segs⟩
    · simp
    · by_cases hc : c = sep <;> simp [hc]

theorem splitOnChar_no_sep (sep : Char) (l : List Char) (h : sep ∉ l) :
    splitOnChar sep l = [l] := by
  induction l with
  | nil => rfl
  | cons c rest ih =>
    have hc : c ≠ sep := fun hh => h (hh ▸ List.mem_cons_self ..)
    have hrest : sep ∉ rest := fun hh => h (List.mem_cons_of_mem _ hh)
    simp [splitOnChar, ih hrest, hc]

theorem splitOnChar_append (sep : Char) (a b : List Char) (ha : sep ∉ a) :
    splitOnChar sep (a ++ sep :: b) = a :: splitOnChar sep b := by
  induction a with
  | nil =>
    simp only [List.nil_append, splitOnChar]
    rcases hsplit : splitOnChar sep b with _ | ⟨seg, segs⟩
    · exact absurd hsplit (splitOnChar_ne_nil sep b)
    · simp
  | cons c a' ih =>
    have hc : c ≠ sep := fun hh => ha (hh ▸ List.mem_cons_self ..)
    have ha' : sep ∉ a' := fun hh => ha (List.mem_cons_of_mem _ hh)
    simp only [List.cons_append, splitOnChar, List.append_eq]
    rw [ih ha']
    simp [hc]

theorem find?_append_first {α : Type} (p : α → Bool) (l1 l2 : List α) (a : α)
    (h : l1.find? p = some a) : (l1 ++ l2).find? p = some a := by
  induction l1 with
  | nil => simp [List.find?] at h
  | cons x xs ih =>
    rcases hx : p x with _ | _
    · simp only [List.find?, hx] at h
      simpa [List.find?, hx] using ih h
    · simp only [List.find?, hx] at h
      simpa [List.find?, hx] using h

theorem find?_map_pred {α : Type} (p : α → Bool) (f : α → α) (l : List α)
    (hp : ∀ x, p (f x) = p x) : (l.map f).find? p = (l.find? p).map f := by
  induction l with
  | nil => rfl
  | cons x xs ih =>
    rcases hx : p x with _ | _
    · simp [List.find?, hp x, hx, ih]
    · simp [List.find?, hp x, hx]

theorem find?_append_none {α : Type} (p : α → Bool) (l1 l2 : List α)
    (h : l1.find? p = none) : (l1 ++ l2).find? p = l2.find? p := by
  induction l1 with
  | nil => rfl
  | cons x xs ih =>
    rcases hx : p x with _ | _
    · simp only [List.find?, hx] at h
      simpa [List.find?, hx] using ih h
    · simp [List.find?, hx] at h

theorem registerProfileCreate_users (role : UserRole) (uid : Nat) (st : AuthState) :
    (AuthService.registerProfileCreate role uid st).users = st.users := by
  cases role <;> rfl

theorem find?_token_map (l : List RefreshTokenRec) (presented : String)
    (f : RefreshTokenRec → RefreshTokenRec)
    (hf : ∀ x, (f x).token = x.token) :
    (l.map f).find? (fun t => t.token = presented) =
      (l.find? (fun t => t.token = presented)).map f := by
  induction l with
  | nil => rfl
  | cons x xs ih =>
    by_cases hx : x.token = presented
    · simp [List.find?, hf x, hx]
    · simp [List.find?, hf x, hx, ih]

theorem login_wrong_small (verify : String → String → Bool) (t : Nat)
    (a r e w : String) (st : AuthState) (u : UserRec)
    (husers : st.users = [u]) (he : u.email = e) (hst : u.status = .ACTIVE)
    (hlock : u.accountLockedUntil = none) (hw : verify w u.password = false)
    (hlt : u.failedLoginAttempts + 1 < 5) :
    AuthService.login verify t a r e w st =
      (.error "Invalid credentials",
       { st with users := [{ u with failedLoginAttempts := u.failedLoginAttempts + 1 }] }) := by
  unfold AuthService.login AuthService.findUserByEmail AuthService.loginVerifyStep
    AuthService.updateUser
  rw [husers]
  simp [List.find?, he, hst, hlock, hw, Nat.not_le.mpr hlt]

theorem login_wrong_lock (verify : String → String → Bool) (t : Nat)
    (a r e w : String) (st : AuthState) (u : UserRec)
    (husers : st.users = [u]) (he : u.email = e) (hst : u.status = .ACTIVE)
    (hlock : u.accountLockedUntil = none) (hw : verify w u.password = false)
    (hge : 5 ≤ u.failedLoginAttempts + 1) :
    AuthService.login verify t a r e w st =
      (.error "Invalid credentials",
       { st with users := [{ u with failedLoginAttempts := u.failedLoginAttempts + 1, accountLockedUntil := some (t + 30 * 60 * 1000) }] }) := by
  unfold AuthService.login AuthService.findUserByEmail AuthService.loginVerifyStep
    AuthService.updateUser
  rw [husers]
  simp [List.find?, he, hst, hlock, hw, hge]

theorem login_locked (verify : String → String → Bool) (t : Nat)
    (a r e pw : String) (st : AuthState) (u : UserRec) (L : Nat)
    (husers : st.users = [u]) (he : u.email = e) (hst : u.status = .ACTIVE)
    (hlock : u.accountLockedUntil = some L) (hfut : t < L) :
    AuthService.login verify t a r e pw st =
      (.error ("Account is locked. Try again in " ++
        toString (ceilDiv (L - t) 60000) ++ " minutes."), st) := by
  unfold AuthService.login AuthService.findUserByEmail
  rw [husers]
  simp [List.find?, he, hst, hlock, hfut]

theorem login_success_after_lock (verify : String → String → Bool) (t : Nat)
    (a r e pw : String) (st : AuthState) (u : UserRec) (L : Nat)
    (husers : st.users = [u]) (he : u.email = e) (hst : u.status = .ACTIVE)
    (hlock : u.accountLockedUntil = some L) (hexp : ¬ t < L)
    (hv : verify pw u.password = true) :
    AuthService.login verify t a r e pw st =
      (.ok { userId := u.id, email := u.email, role := u.role, status := u.status,
             accessToken := a, refreshToken := r },
       { st with users := [{ u with failedLoginAttempts := 0, accountLockedUntil := none, lastLogin := some t }],
                 refreshTokens := st.refreshTokens ++
                   [AuthService.mintedRecord t r u.id st.nextId],
                 nextId := st.nextId + 1 }) := by
  unfold AuthService.login AuthService.findUserByEmail AuthService.loginVerifyStep
    AuthService.updateUser AuthService.generateTokens
  rw [husers]
  simp [List.find?, he, hst, hlock, hexp, hv]

theorem refreshTokens_replay_rejected (now : Nat) (presented a2 r2 : String)
    (st : AuthState) (rec0 : RefreshTokenRec)
    (h : st.refreshTokens.find? (fun t => t.token = presented) = some rec0)
    (hrev : rec0.revokedAt.isSome = true) :
    AuthService.refreshTokens now presented a2 r2 st =
      (.error "Invalid or expired refresh token", st) := by
  unfold AuthService.refreshTokens
  rw [h]
  dsimp only
  rw [if_pos (Or.inl hrev)]

theorem register_conflict (hash : String → String) (email password : String)
    (role : UserRole) (st : AuthState) (u : UserRec)
    (h : AuthService.findUserByEmail st email = some u) :
    AuthService.register hash email password role st =
      (.error "User with this email already exists", st) := by
  unfold AuthService.register
  rw [h]

/-! ### Claim C7 -/

/-- C7: for every non-empty plaintext, decrypting the encryption result
recovers the plaintext; two encryptions of the same plaintext under
distinct fresh IVs never produce identical ciphertext tokens; and each
token has the form ivHex:cipherHex with exactly one colon separator. -/
theorem C7_encrypt_decrypt_roundtrip (c : CBCCipher) (key iv iv2 data : List Nat)
    (hkey : key.length = 32)
    (hiv : iv.length = 16) (hivb : ∀ b ∈ iv, b < 256)
    (hiv2 : iv2.length = 16) (hiv2b : ∀ b ∈ iv2, b < 256)
    (hdata : data ≠ []) (hdatab : ∀ b ∈ data, b < 256)
    (hne : iv ≠ iv2) :
    (∃ tok, EncryptionService.encrypt c key iv data = .ok tok ∧
      EncryptionService.decrypt c key tok = .ok data ∧
      tok.count ':' = 1) ∧
    EncryptionService.encrypt c key iv data ≠ EncryptionService.encrypt c key iv2 data := by
  have henc : EncryptionService.encrypt c key iv data =
      .ok (hexEncode iv ++ ':' :: hexEncode (c.encBlocks key iv data)) := by
    unfold EncryptionService.encrypt
    rw [if_neg hdata, if_pos ⟨hkey, hiv⟩]
  have hcbb : ∀ b ∈ c.encBlocks key iv data, b < 256 := c.encBytes key iv data hdatab
  have hsplit : splitOnChar ':' (hexEncode iv ++ ':' :: hexEncode (c.encBlocks key iv data)) =
      [hexEncode iv, hexEncode (c.encBlocks key iv data)] := by
    rw [splitOnChar_append _ _ _ (colon_not_mem_hexEncode iv),
        splitOnChar_no_sep _ _ (colon_not_mem_hexEncode (c.encBlocks key iv data))]
  have htokne : hexEncode iv ++ ':' :: hexEncode (c.encBlocks key iv data) ≠ [] := by
    simp
  constructor
  · refine ⟨_, henc, ?_, ?_⟩
    · have hdec : EncryptionService.decryptTry c key
          (hexEncode iv ++ ':' :: hexEncode (c.encBlocks key iv data)) = .ok data := by
        unfold EncryptionService.decryptTry
        simp only [hsplit, List.length_cons, List.length_nil, List.getD, List.get?,
          Option.getD_some]
        rw [hexDecodePairs_hexEncode iv hivb,
            hexDecodePairs_hexEncode (c.encBlocks key iv data) hcbb]
        rw [if_neg (by norm_num), if_pos ⟨hkey, hiv⟩, c.decEnc key iv data]
      unfold EncryptionService.decrypt
      rw [if_neg htokne, hdec]
    · have h1 : (hexEncode iv).count ':' = 0 :=
        List.count_eq_zero.mpr (colon_not_mem_hexEncode iv)
      have h2 : (hexEncode (c.encBlocks key iv data)).count ':' = 0 :=
        List.count_eq_zero.mpr (colon_not_mem_hexEncode (c.encBlocks key iv data))
      simp [List.count_append, List.count_cons, h1, h2]
  · intro h
    have henc2 : EncryptionService.encrypt c key iv2 data =
        .ok (hexEncode iv2 ++ ':' :: hexEncode (c.encBlocks key iv2 data)) := by
      unfold EncryptionService.encrypt
      rw [if_neg hdata, if_pos ⟨hkey, hiv2⟩]
    rw [henc, henc2] at h
    injection h with htok
    have hlen : (hexEncode iv).length = (hexEncode iv2).length := by
      rw [hexEncode_length, hexEncode_length, hiv, hiv2]
    obtain ⟨hpre, _⟩ := List.append_inj htok hlen
    exact hne (hexEncode_injOn iv iv2 hivb hiv2b hpre)

/-- C7 witness: the roundtrip and fresh-IV distinctness evaluated at a
concrete cipher, key, IV pair and plaintext. -/
theorem C7_witness :
    ivA ≠ ivB ∧
    ((∃ tok, EncryptionService.encrypt markCipher key32 ivA [104, 105] = .ok tok ∧
        EncryptionService.decrypt markCipher key32 tok = .ok [104, 105] ∧
        tok.count ':' = 1) ∧
      EncryptionService.encrypt markCipher key32 ivA [104, 105] ≠
        EncryptionService.encrypt markCipher key32 ivB [104, 105]) :=
  ⟨by decide, C7_encrypt_decrypt_roundtrip markCipher key32 ivA ivB [104, 105]
    (by decide) (by decide) (by decide) (by decide) (by decide) (by decide)
    (by decide) (by decide)⟩

/-! ### Claim C8 -/

/-- C8 counterexample: the malformed-format failure and the
cipher-verification failure surface as the SAME generic error
`Data decryption failed`; the distinct malformed-ciphertext error promised
by the claim is thrown inside the try block and swallowed by the catch.
`['a','b','c']` has one segment; `badTok` is well-formed but fails cipher
verification — both produce the identical error value. -/
theorem C8_counterexample :
    EncryptionService.decrypt markCipher key32 ['a', 'b', 'c'] =
      .error "Data decryption failed" ∧
    (splitOnChar ':' ['a', 'b', 'c']).length ≠ 2 ∧
    EncryptionService.decrypt markCipher key32 badTok =
      .error "Data decryption failed" ∧
    (splitOnChar ':' badTok).length = 2 := by
  refine ⟨by rfl, by decide, by rfl, by decide⟩

/-- C8 amended: for every non-empty token, decrypt is total and fails
deterministically — it either returns a plaintext or the single generic
error `Data decryption failed`, and a token that does not split into
exactly two segments always produces that generic error (not a distinct
malformed-ciphertext error); it never returns a silent empty result or
crashes. -/
theorem C8_decrypt_generic_failure (c : CBCCipher) (key : List Nat) (tok : List Char)
    (h : tok ≠ []) :
    ((splitOnChar ':' tok).length ≠ 2 →
      EncryptionService.decrypt c key tok = .error "Data decryption failed") ∧
    ((∃ p, EncryptionService.decrypt c key tok = .ok p) ∨
      EncryptionService.decrypt c key tok = .error "Data decryption failed") := by
  constructor
  · intro hlen
    have htry : EncryptionService.decryptTry c key tok = .error "Invalid encrypted data format" := by
      unfold EncryptionService.decryptTry
      rw [if_pos hlen]
    unfold EncryptionService.decrypt
    rw [if_neg h, htry]
  · unfold EncryptionService.decrypt
    rw [if_neg h]
    cases htry : EncryptionService.decryptTry c key tok with
    | ok p => exact Or.inl ⟨p, rfl⟩
    | error e => exact Or.inr rfl

/-- C8 witness: the amended failure behavior evaluated at the concrete
malformed token abc. -/
theorem C8_witness :
    (['a', 'b', 'c'] : List Char) ≠ [] ∧
    (((splitOnChar ':' ['a', 'b', 'c']).length ≠ 2 →
      EncryptionService.decrypt markCipher key32 ['a', 'b', 'c'] =
        .error "Data decryption failed") ∧
    ((∃ p, EncryptionService.decrypt markCipher key32 ['a', 'b', 'c'] = .ok p) ∨
      EncryptionService.decrypt markCipher key32 ['a', 'b', 'c'] =
        .error "Data decryption failed")) :=
  ⟨by decide, C8_decrypt_generic_failure markCipher key32 ['a', 'b', 'c'] (by decide)⟩

/-! ### Claim C1 -/

/-- C1 counterexample: an authenticated GET on the patients endpoint (PHI-
linked) records exactly one audit entry, but that entry has
`phiAccessed = false`, not true: the interceptor never sets the flag and
`createAuditLog` defaults it to false, so the claim's required entry with
`phiAccessed = true` does not exist. -/
theorem C1_counterexample :
    (AuditInterceptor.intercept phiCtx (.ok ()) true []).2.length = 1 ∧
    ((AuditInterceptor.intercept phiCtx (.ok ()) true []).2.filter
      (fun row => row.phiAccessed)).length = 0 ∧
    AuditInterceptor.resourceOf phiCtx.url = "patients" := by
  refine ⟨by rfl, by rfl, by rfl⟩

/-- C1 amended: for every request with an authenticated user, the
interceptor records exactly one audit entry — on handler success and on
handler failure alike, with the error text included on failure — but the
entry always carries `phiAccessed = false`, PHI-linked endpoint or not (no
request ever records an interceptor entry with `phiAccessed = true`); the
handler outcome itself is passed through unchanged. -/
theorem C1_interceptor_single_entry_phi_false (ctx : AuditInterceptor.RequestCtx)
    (uid : Nat) (hr : Except String Unit) (log : List AuditRow)
    (hauth : ctx.user = some uid) :
    ∃ row : AuditRow,
      (AuditInterceptor.intercept ctx hr true log).2 = log ++ [row] ∧
      row.phiAccessed = false ∧
      row.userId = some uid ∧
      (AuditInterceptor.intercept ctx hr true log).1 = hr ∧
      (∀ e, hr = .error e → row.success = false ∧ row.errorMessage = some e) ∧
      (hr = .ok () → row.success = true ∧ row.errorMessage = none) := by
  cases hr with
  | ok r =>
    cases r
    refine ⟨auditRowOf (AuditInterceptor.okBranchData ctx uid), ?_, ?_, ?_, ?_, ?_, ?_⟩
    · simp [AuditInterceptor.intercept, hauth, AuditService.createAuditLog,
        AuditInterceptor.okBranchData]
    · simp [auditRowOf, AuditInterceptor.okBranchData]
    · simp [auditRowOf, AuditInterceptor.okBranchData]
    · simp [AuditInterceptor.intercept, hauth]
    · intro e he
      cases he
    · intro _
      refine ⟨by simp [auditRowOf, AuditInterceptor.okBranchData],
        by simp [auditRowOf, AuditInterceptor.okBranchData]⟩
  | error e =>
    refine ⟨auditRowOf (AuditInterceptor.errBranchData ctx uid e), ?_, ?_, ?_, ?_, ?_, ?_⟩
    · simp [AuditInterceptor.intercept, hauth, AuditService.createAuditLog,
        AuditInterceptor.errBranchData]
    · simp [auditRowOf, AuditInterceptor.errBranchData]
    · simp [auditRowOf, AuditInterceptor.errBranchData]
    · simp [AuditInterceptor.intercept, hauth]
    · intro e2 he2
      cases he2
      refine ⟨by simp [auditRowOf, AuditInterceptor.errBranchData],
        by simp [auditRowOf, AuditInterceptor.errBranchData]⟩
    · intro hok
      cases hok

/-- C1 witness: the amended interceptor behavior evaluated at the concrete
authenticated patients-endpoint request. -/
theorem C1_witness :
    phiCtx.user = some 7 ∧
    (∃ row : AuditRow,
      (AuditInterceptor.intercept phiCtx (.ok ()) true []).2 = [] ++ [row] ∧
      row.phiAccessed = false ∧
      row.userId = some 7 ∧
      (AuditInterceptor.intercept phiCtx (.ok ()) true []).1 = .ok () ∧
      (∀ e, (Except.ok () : Except String Unit) = .error e →
        row.success = false ∧ row.errorMessage = some e) ∧
      ((Except.ok () : Except String Unit) = .ok () →
        row.success = true ∧ row.errorMessage = none)) :=
  ⟨rfl, C1_interceptor_single_entry_phi_false phiCtx 7 (.ok ()) [] rfl⟩

/-! ### Claim C9 -/

/-- C9: the audit recorder never raises to its caller — a failing store
write leaves the audit log unwritten, produces only an operational log
message, and the interceptor passes the business outcome through unchanged
whether or not the audit write succeeds. -/
theorem C9_audit_write_failure_isolated (ctx : AuditInterceptor.RequestCtx)
    (hr : Except String Unit) (writeOk : Bool) (log : List AuditRow)
    (d : AuditLogData) :
    (AuditInterceptor.intercept ctx hr writeOk log).1 = hr ∧
    ((AuditService.createAuditLog writeOk log d).2.isSome ↔ writeOk = false) ∧
    (writeOk = false → (AuditService.createAuditLog writeOk log d).1 = log) := by
  refine ⟨?_, ?_, ?_⟩
  · rcases hu : ctx.user with _ | uid <;> cases hr <;>
      simp [AuditInterceptor.intercept, hu]
  · cases writeOk <;> simp [AuditService.createAuditLog]
  · intro hw
    subst hw
    simp [AuditService.createAuditLog]

/-- C9 witness: the isolation of a failing audit write evaluated at a
concrete failing request. -/
theorem C9_witness :
    (AuditInterceptor.intercept phiCtx (.error "boom") false []).1 = .error "boom" ∧
    ((AuditService.createAuditLog false [] sampleAuditData).2.isSome ↔ false = false) ∧
    (false = false → (AuditService.createAuditLog false [] sampleAuditData).1 = []) :=
  C9_audit_write_failure_isolated phiCtx (.error "boom") false [] sampleAuditData

/-! ### Claim C10 -/

/-- C10: the empty (falsy) input is returned unchanged by both encrypt and
decrypt without raising; in particular decrypt of the empty string succeeds
even though the empty string does not split into two segments, so the
malformed-input failure applies only to non-empty tokens. -/
theorem C10_empty_passthrough (c : CBCCipher) (key iv : List Nat) :
    EncryptionService.encrypt c key iv [] = .ok [] ∧
    EncryptionService.decrypt c key [] = .ok [] ∧
    (splitOnChar ':' ([] : List Char)).length ≠ 2 := by
  refine ⟨?_, ?_, by decide⟩
  · unfold EncryptionService.encrypt
    rw [if_pos rfl]
  · unfold EncryptionService.decrypt
    rw [if_pos rfl]

/-- C10 witness: the empty-input passthrough at a concrete cipher and key. -/
theorem C10_witness :
    EncryptionService.encrypt markCipher key32 ivA [] = .ok [] ∧
    EncryptionService.decrypt markCipher key32 [] = .ok [] ∧
    (splitOnChar ':' ([] : List Char)).length ≠ 2 :=
  C10_empty_passthrough markCipher key32 ivA

/-! ### Claim C3 -/

/-- C3 counterexample: with two live refresh tokens of identity 1 in the
store, logging identity 1 out with token t1 leaves the other live token t2
un-revoked — logout does NOT mark all of the identity's non-revoked
refresh-token records revoked, only the one matching the presented token. -/
theorem C3_counterexample :
    tokRec2 ∈ twoTokState.refreshTokens ∧
    tokRec2.userId = 1 ∧
    tokRec2.revokedAt = none ∧
    tokRec2 ∈ (AuthService.logout 5 1 "t1" twoTokState).state.refreshTokens ∧
    ¬ (∀ t ∈ (AuthService.logout 5 1 "t1" twoTokState).state.refreshTokens,
        t.userId = 1 → t.revokedAt ≠ none) := by
  refine ⟨by decide, by decide, by decide, by decide, by decide⟩

/-- C3 amended: logout revokes exactly the refresh-token records matching
both the identity and the presented token value (leaving the identity's
other records untouched), and places the denylist marker under cache key
blacklist:identityId with a TTL of 3600 seconds. -/
theorem C3_logout_presented_token_and_denylist (now uid : Nat) (tok : String)
    (st : AuthState) :
    (AuthService.logout now uid tok st).cache =
      { key := "blacklist:" ++ toString uid, value := "true", ttlSeconds := some 3600 } ∧
    (AuthService.logout now uid tok st).message = "Logout successful" ∧
    (∀ t ∈ st.refreshTokens, t.userId = uid ∧ t.token = tok →
      { t with revokedAt := some now } ∈
        (AuthService.logout now uid tok st).state.refreshTokens) ∧
    (∀ t ∈ st.refreshTokens, ¬ (t.userId = uid ∧ t.token = tok) →
      t ∈ (AuthService.logout now uid tok st).state.refreshTokens) ∧
    (AuthService.logout now uid tok st).state.users = st.users := by
  refine ⟨?_, rfl, ?_, ?_, rfl⟩
  · simp [AuthService.logout, RedisService.set]
  · intro t ht hmatch
    have : { t with revokedAt := some now } =
        (fun t : RefreshTokenRec =>
          if t.userId = uid ∧ t.token = tok then { t with revokedAt := some now } else t) t := by
      simp [hmatch]
    rw [this]
    exact List.mem_map_of_mem _ ht
  · intro t ht hmiss
    have : t = (fun t : RefreshTokenRec =>
        if t.userId = uid ∧ t.token = tok then { t with revokedAt := some now } else t) t := by
      simp [hmiss]
    rw [this]
    exact List.mem_map_of_mem _ ht

/-- C3 witness: the amended logout behavior evaluated on the concrete
two-token store. -/
theorem C3_witness :
    (AuthService.logout 5 1 "t1" twoTokState).cache =
      { key := "blacklist:" ++ toString 1, value := "true", ttlSeconds := some 3600 } ∧
    (AuthService.logout 5 1 "t1" twoTokState).message = "Logout successful" ∧
    (∀ t ∈ twoTokState.refreshTokens, t.userId = 1 ∧ t.token = "t1" →
      { t with revokedAt := some 5 } ∈
        (AuthService.logout 5 1 "t1" twoTokState).state.refreshTokens) ∧
    (∀ t ∈ twoTokState.refreshTokens, ¬ (t.userId = 1 ∧ t.token = "t1") →
      t ∈ (AuthService.logout 5 1 "t1" twoTokState).state.refreshTokens) ∧
    (AuthService.logout 5 1 "t1" twoTokState).state.users = twoTokState.users :=
  C3_logout_presented_token_and_denylist 5 1 "t1" twoTokState

/-! ### Claim C4 -/

/-- C4 counterexample: registering a DOCTOR on an empty store proceeds by
two separate store writes, with no transaction; the state after the first
write — one of the three observable store states — contains the credential
row (status PENDING_VERIFICATION) with no practitioner profile, so a
reachable state does contain the credential without its role profile. -/
theorem C4_counterexample :
    (AuthService.registerStates (fun s => s) "doc@example.com" "Secure1!@"
        .DOCTOR emptyState).length = 3 ∧
    (AuthService.registerStates (fun s => s) "doc@example.com" "Secure1!@"
        .DOCTOR emptyState).getD 1 emptyState =
      { users := [regUserDoc], patients := [], doctors := [], refreshTokens := [],
        nextId := 1 } ∧
    regUserDoc.status = .PENDING_VERIFICATION := by
  refine ⟨by decide, by decide, by decide⟩

/-- C4 amended: registration with an unused email creates the credential
(status PENDING_VERIFICATION) and — for role PATIENT or DOCTOR — exactly
one role profile stub, via two sequential store writes rather than one
atomic transaction (the intermediate state is observable); a second
registration with the same email fails with a conflict and changes
nothing. -/
theorem C4_register_two_writes (hash : String → String) (email password : String)
    (role : UserRole) (st : AuthState)
    (hfree : AuthService.findUserByEmail st email = none)
    (hdocs : ∀ d ∈ st.doctors, d.userId ≠ st.nextId)
    (hpats : ∀ p ∈ st.patients, p.userId ≠ st.nextId) :
    (∃ u : UserRec,
      (AuthService.register hash email password role st).1 =
        .ok { message := "Registration successful. Please check your email for verification.",
              userId := u.id } ∧
      u.email = email ∧
      u.status = .PENDING_VERIFICATION ∧
      u.id = st.nextId ∧
      u ∈ (AuthService.register hash email password role st).2.users ∧
      (role = .DOCTOR →
        ((AuthService.register hash email password role st).2.doctors.filter
          (fun d => d.userId = u.id)).length = 1) ∧
      (role = .PATIENT →
        ((AuthService.register hash email password role st).2.patients.filter
          (fun p => p.userId = u.id)).length = 1)) ∧
    (AuthService.register hash email password role
        (AuthService.register hash email password role st).2).1 =
      .error "User with this email already exists" ∧
    (AuthService.register hash email password role
        (AuthService.register hash email password role st).2).2 =
      (AuthService.register hash email password role st).2 := by
  have hu : (AuthService.registerUserCreate hash email password role st).1.email = email := rfl
  have husers : (AuthService.register hash email password role st).2.users =
      st.users ++ [(AuthService.registerUserCreate hash email password role st).1] := by
    simp only [AuthService.register, hfree]
    rw [registerProfileCreate_users]
    rfl
  have hfind2 : AuthService.findUserByEmail
      (AuthService.register hash email password role st).2 email =
      some (AuthService.registerUserCreate hash email password role st).1 := by
    unfold AuthService.findUserByEmail
    rw [husers, find?_append_none _ _ _ hfree]
    simp [List.find?, hu]
  refine ⟨⟨(AuthService.registerUserCreate hash email password role st).1,
      ?_, hu, rfl, rfl, ?_, ?_, ?_⟩, ?_, ?_⟩
  · simp only [AuthService.register, hfree]
  · rw [husers]
    exact List.mem_append_right _ (List.mem_singleton.mpr rfl)
  · intro hrole
    subst hrole
    simp only [AuthService.register, hfree, AuthService.registerProfileCreate]
    rw [List.filter_append]
    have hds : (AuthService.registerUserCreate hash email password .DOCTOR st).2.doctors =
        st.doctors := rfl
    rw [hds]
    have h1 : (st.doctors.filter
        (fun d => d.userId = (AuthService.registerUserCreate hash email password .DOCTOR st).1.id)) = [] := by
      rw [List.filter_eq_nil_iff]
      intro d hd
      simpa using hdocs d hd
    rw [h1]
    simp
  · intro hrole
    subst hrole
    simp only [AuthService.register, hfree, AuthService.registerProfileCreate]
    rw [List.filter_append]
    have hps : (AuthService.registerUserCreate hash email password .PATIENT st).2.patients =
        st.patients := rfl
    rw [hps]
    have h1 : (st.patients.filter
        (fun p => p.userId = (AuthService.registerUserCreate hash email password .PATIENT st).1.id)) = [] := by
      rw [List.filter_eq_nil_iff]
      intro p hp
      simpa using hpats p hp
    rw [h1]
    simp
  · rw [register_conflict hash email password role _ _ hfind2]
  · rw [register_conflict hash email password role _ _ hfind2]

/-- C4 witness: the amended registration behavior evaluated at the
concrete DOCTOR registration on the empty store. -/
theorem C4_witness :
    (∃ u : UserRec,
      (AuthService.register (fun s => s) "doc@example.com" "Secure1!@" .DOCTOR emptyState).1 =
        .ok { message := "Registration successful. Please check your email for verification.",
              userId := u.id } ∧
      u.email = "doc@example.com" ∧
      u.status = .PENDING_VERIFICATION ∧
      u.id = emptyState.nextId ∧
      u ∈ (AuthService.register (fun s => s) "doc@example.com" "Secure1!@" .DOCTOR emptyState).2.users ∧
      (UserRole.DOCTOR = .DOCTOR →
        ((AuthService.register (fun s => s) "doc@example.com" "Secure1!@" .DOCTOR emptyState).2.doctors.filter
          (fun d => d.userId = u.id)).length = 1) ∧
      (UserRole.DOCTOR = .PATIENT →
        ((AuthService.register (fun s => s) "doc@example.com" "Secure1!@" .DOCTOR emptyState).2.patients.filter
          (fun p => p.userId = u.id)).length = 1)) ∧
    (AuthService.register (fun s => s) "doc@example.com" "Secure1!@" .DOCTOR
        (AuthService.register (fun s => s) "doc@example.com" "Secure1!@" .DOCTOR emptyState).2).1 =
      .error "User with this email already exists" ∧
    (AuthService.register (fun s => s) "doc@example.com" "Secure1!@" .DOCTOR
        (AuthService.register (fun s => s) "doc@example.com" "Secure1!@" .DOCTOR emptyState).2).2 =
      (AuthService.register (fun s => s) "doc@example.com" "Secure1!@" .DOCTOR emptyState).2 :=
  C4_register_two_writes (fun s => s) "doc@example.com" "Secure1!@" .DOCTOR emptyState
    (by decide) (by decide) (by decide)

/-! ### Claim C2 -/

/-- C2: rotation fails with the invalid-or-expired error exactly when the
presented token's record is absent, already revoked (even if unexpired) or
past its expiry; on success it returns the new pair, the old record is
marked revoked with its successor pointer set to the new refresh token in
the same store write, redeeming the same token again fails with the same
error, and the old record carries exactly the one successor. -/
theorem C2_refresh_rotation (st : AuthState) (now : Nat)
    (presented newAccess newRefresh : String) :
    (st.refreshTokens.find? (fun t => t.token = presented) = none →
      AuthService.refreshTokens now presented newAccess newRefresh st =
        (.error "Invalid or expired refresh token", st)) ∧
    (∀ r, st.refreshTokens.find? (fun t => t.token = presented) = some r →
      (r.revokedAt.isSome ∨ r.expiresAt < now) →
      AuthService.refreshTokens now presented newAccess newRefresh st =
        (.error "Invalid or expired refresh token", st)) ∧
    (∀ r, st.refreshTokens.find? (fun t => t.token = presented) = some r →
      r.revokedAt = none → ¬ r.expiresAt < now →
      (AuthService.refreshTokens now presented newAccess newRefresh st).1 =
        .ok { accessToken := newAccess, refreshToken := newRefresh } ∧
      (AuthService.refreshTokens now presented newAccess newRefresh st).2.refreshTokens.find?
          (fun t => t.token = presented) =
        some { r with revokedAt := some now, replacedBy := some newRefresh } ∧
      (∀ now2 a2 r2, (AuthService.refreshTokens now2 presented a2 r2
          (AuthService.refreshTokens now presented newAccess newRefresh st).2).1 =
        .error "Invalid or expired refresh token") ∧
      (r.id ≠ st.nextId →
        AuthService.mintedRecord now newRefresh r.userId st.nextId ∈
          (AuthService.refreshTokens now presented newAccess newRefresh st).2.refreshTokens)) := by
  refine ⟨?_, ?_, ?_⟩
  · intro h
    unfold AuthService.refreshTokens
    rw [h]
  · intro r hr hfail
    unfold AuthService.refreshTokens
    rw [hr]
    dsimp only
    rw [if_pos hfail]
  · intro r hr h1 h2
    have hcond : ¬ (r.revokedAt.isSome ∨ r.expiresAt < now) := by
      simp [h1, h2]
    have hres : AuthService.refreshTokens now presented newAccess newRefresh st =
        (.ok { accessToken := newAccess, refreshToken := newRefresh },
         { st with
            refreshTokens := (st.refreshTokens ++
              [AuthService.mintedRecord now newRefresh r.userId st.nextId]).map
                (fun t => if t.id = r.id then
                  { t with revokedAt := some now, replacedBy := some newRefresh } else t),
            nextId := st.nextId + 1 }) := by
      unfold AuthService.refreshTokens
      rw [hr]
      dsimp only
      rw [if_neg hcond]
      rfl
    have hf : ∀ x : RefreshTokenRec,
        ((fun t : RefreshTokenRec => if t.id = r.id then
          { t with revokedAt := some now, replacedBy := some newRefresh } else t) x).token =
        x.token := by
      intro x
      by_cases hx : x.id = r.id <;> simp [hx]
    have hfind2 : ((st.refreshTokens ++
        [AuthService.mintedRecord now newRefresh r.userId st.nextId]).map
          (fun t => if t.id = r.id then
            { t with revokedAt := some now, replacedBy := some newRefresh } else t)).find?
          (fun t => t.token = presented) =
        some { r with revokedAt := some now, replacedBy := some newRefresh } := by
      rw [find?_token_map _ _ _ hf, find?_append_first _ _ _ r hr]
      simp
    refine ⟨?_, ?_, ?_, ?_⟩
    · rw [hres]
    · rw [hres]
      exact hfind2
    · intro now2 a2 r2
      rw [hres]
      rw [refreshTokens_replay_rejected now2 presented a2 r2 _
        { r with revokedAt := some now, replacedBy := some newRefresh } hfind2 rfl]
    · intro hid
      rw [hres]
      have hm : AuthService.mintedRecord now newRefresh r.userId st.nextId ∈
          st.refreshTokens ++ [AuthService.mintedRecord now newRefresh r.userId st.nextId] :=
        List.mem_append_right _ (List.mem_singleton.mpr rfl)
      have hne2 : ¬ ((AuthService.mintedRecord now newRefresh r.userId st.nextId).id = r.id) := by
        simp only [AuthService.mintedRecord]
        exact fun h => hid h.symm
      have hfix : (fun t : RefreshTokenRec => if t.id = r.id then
          { t with revokedAt := some now, replacedBy := some newRefresh } else t)
          (AuthService.mintedRecord now newRefresh r.userId st.nextId) =
          AuthService.mintedRecord now newRefresh r.userId st.nextId := by
        simp only [if_neg hne2]
      have hmem2 : (fun t : RefreshTokenRec => if t.id = r.id then
          { t with revokedAt := some now, replacedBy := some newRefresh } else t)
          (AuthService.mintedRecord now newRefresh r.userId st.nextId) ∈
          (st.refreshTokens ++ [AuthService.mintedRecord now newRefresh r.userId st.nextId]).map
            (fun t => if t.id = r.id then
              { t with revokedAt := some now, replacedBy := some newRefresh } else t) :=
        List.mem_map_of_mem _ hm
      rw [hfix] at hmem2
      exact hmem2

/-- C2 witness: rotating the concrete live token t1 succeeds, marks the old
record revoked with successor nr, and an immediate replay of t1 is
rejected. -/
theorem C2_witness :
    (AuthService.refreshTokens 10 "t1" "na" "nr" oneTokState).1 =
      .ok { accessToken := "na", refreshToken := "nr" } ∧
    (AuthService.refreshTokens 10 "t1" "na" "nr" oneTokState).2.refreshTokens.find?
        (fun t => t.token = "t1") =
      some { tokRec1 with revokedAt := some 10, replacedBy := some "nr" } ∧
    (AuthService.refreshTokens 99 "t1" "na2" "nr2"
        (AuthService.refreshTokens 10 "t1" "na" "nr" oneTokState).2).1 =
      .error "Invalid or expired refresh token" ∧
    AuthService.mintedRecord 10 "nr" 1 2 ∈
      (AuthService.refreshTokens 10 "t1" "na" "nr" oneTokState).2.refreshTokens := by
  have h := (C2_refresh_rotation oneTokState 10 "t1" "na" "nr").2.2 tokRec1
    (by decide) (by decide) (by decide)
  exact ⟨h.1, h.2.1, h.2.2.1 99 "na2" "nr2", h.2.2.2 (by decide)⟩

/-! ### Claim C5 -/

/-- C5: starting from a clean counter, five consecutive wrong-password
attempts leave the account with counter 5 and lockout-expiry set to the
time of the fifth attempt plus 30 minutes; while that expiry is in the
future, every login attempt — any password, the correct one included — is
rejected with the account-locked message stating the remaining minutes,
computed as the ceiling of (lockoutExpiry - now) / 60000. -/
theorem C5_five_failures_lock_account (verify : String → String → Bool)
    (e w : String) (u : UserRec) (n : Nat)
    (a1 r1 a2 r2 a3 r3 a4 r4 a5 r5 : String) (t1 t2 t3 t4 t5 : Nat)
    (he : u.email = e) (hst : u.status = .ACTIVE)
    (hlock : u.accountLockedUntil = none) (hfla : u.failedLoginAttempts = 0)
    (hw : verify w u.password = false) :
    ∃ st5 : AuthState, ∃ locked : UserRec,
      (AuthService.login verify t5 a5 r5 e w
        (AuthService.login verify t4 a4 r4 e w
          (AuthService.login verify t3 a3 r3 e w
            (AuthService.login verify t2 a2 r2 e w
              (AuthService.login verify t1 a1 r1 e w (oneUserState u n)).2).2).2).2).2 = st5 ∧
      st5.users = [locked] ∧
      locked.failedLoginAttempts = 5 ∧
      locked.accountLockedUntil = some (t5 + 30 * 60 * 1000) ∧
      (∀ t6 pw a r0, t6 < t5 + 30 * 60 * 1000 →
        (AuthService.login verify t6 a r0 e pw st5).1 =
          .error ("Account is locked. Try again in " ++
            toString (ceilDiv (t5 + 30 * 60 * 1000 - t6) 60000) ++ " minutes.")) := by
  have h1 := login_wrong_small verify t1 a1 r1 e w (oneUserState u n) u rfl he hst hlock hw
    (by omega)
  have c1 : (AuthService.login verify t1 a1 r1 e w (oneUserState u n)).2 =
      { oneUserState u n with users := [{ u with failedLoginAttempts := u.failedLoginAttempts + 1 }] } := by
    rw [h1]
  have h2 := login_wrong_small verify t2 a2 r2 e w
    { oneUserState u n with users := [{ u with failedLoginAttempts := u.failedLoginAttempts + 1 }] }
    { u with failedLoginAttempts := u.failedLoginAttempts + 1 }
    rfl he hst hlock hw (show u.failedLoginAttempts + 1 + 1 < 5 by omega)
  have c2 : (AuthService.login verify t2 a2 r2 e w
      (AuthService.login verify t1 a1 r1 e w (oneUserState u n)).2).2 =
      { oneUserState u n with users := [{ u with failedLoginAttempts := u.failedLoginAttempts + 1 + 1 }] } := by
    rw [c1, h2]
  have h3 := login_wrong_small verify t3 a3 r3 e w
    { oneUserState u n with users := [{ u with failedLoginAttempts := u.failedLoginAttempts + 1 + 1 }] }
    { u with failedLoginAttempts := u.failedLoginAttempts + 1 + 1 }
    rfl he hst hlock hw (show u.failedLoginAttempts + 1 + 1 + 1 < 5 by omega)
  have c3 : (AuthService.login verify t3 a3 r3 e w
      (AuthService.login verify t2 a2 r2 e w
        (AuthService.login verify t1 a1 r1 e w (oneUserState u n)).2).2).2 =
      { oneUserState u n with users := [{ u with failedLoginAttempts := u.failedLoginAttempts + 1 + 1 + 1 }] } := by
    rw [c2, h3]
  have h4 := login_wrong_small verify t4 a4 r4 e w
    { oneUserState u n with users := [{ u with failedLoginAttempts := u.failedLoginAttempts + 1 + 1 + 1 }] }
    { u with failedLoginAttempts := u.failedLoginAttempts + 1 + 1 + 1 }
    rfl he hst hlock hw (show u.failedLoginAttempts + 1 + 1 + 1 + 1 < 5 by omega)
  have c4 : (AuthService.login verify t4 a4 r4 e w
      (AuthService.login verify t3 a3 r3 e w
        (AuthService.login verify t2 a2 r2 e w
          (AuthService.login verify t1 a1 r1 e w (oneUserState u n)).2).2).2).2 =
      { oneUserState u n with users := [{ u with failedLoginAttempts := u.failedLoginAttempts + 1 + 1 + 1 + 1 }] } := by
    rw [c3, h4]
  have h5 := login_wrong_lock verify t5 a5 r5 e w
    { oneUserState u n with users := [{ u with failedLoginAttempts := u.failedLoginAttempts + 1 + 1 + 1 + 1 }] }
    { u with failedLoginAttempts := u.failedLoginAttempts + 1 + 1 + 1 + 1 }
    rfl he hst hlock hw (show 5 ≤ u.failedLoginAttempts + 1 + 1 + 1 + 1 + 1 by omega)
  have c5 : (AuthService.login verify t5 a5 r5 e w
      (AuthService.login verify t4 a4 r4 e w
        (AuthService.login verify t3 a3 r3 e w
          (AuthService.login verify t2 a2 r2 e w
            (AuthService.login verify t1 a1 r1 e w (oneUserState u n)).2).2).2).2).2 =
      { oneUserState u n with users := [{ u with failedLoginAttempts := u.failedLoginAttempts + 1 + 1 + 1 + 1 + 1, accountLockedUntil := some (t5 + 30 * 60 * 1000) }] } := by
    rw [c4, h5]
  refine ⟨_, { u with failedLoginAttempts := u.failedLoginAttempts + 1 + 1 + 1 + 1 + 1, accountLockedUntil := some (t5 + 30 * 60 * 1000) }, rfl, ?_, ?_, ?_, ?_⟩
  · rw [c5]
  · simp [hfla]
  · rfl
  · intro t6 pw a r0 hlt6
    rw [c5]
    rw [login_locked verify t6 a r0 e pw _
      { u with failedLoginAttempts := u.failedLoginAttempts + 1 + 1 + 1 + 1 + 1, accountLockedUntil := some (t5 + 30 * 60 * 1000) }
      (t5 + 30 * 60 * 1000) rfl he hst rfl hlt6]

/-- C5 witness: the lockout behavior evaluated at a concrete identity, five
wrong attempts at times 1..5, then a correct-password attempt at time 500
inside the lockout window. -/
theorem C5_witness :
    ∃ st5 : AuthState, ∃ locked : UserRec,
      (AuthService.login eqVerify 5 "a5" "r5" "alice@example.com" "bad"
        (AuthService.login eqVerify 4 "a4" "r4" "alice@example.com" "bad"
          (AuthService.login eqVerify 3 "a3" "r3" "alice@example.com" "bad"
            (AuthService.login eqVerify 2 "a2" "r2" "alice@example.com" "bad"
              (AuthService.login eqVerify 1 "a1" "r1" "alice@example.com" "bad"
                (oneUserState aliceUser 9)).2).2).2).2).2 = st5 ∧
      st5.users = [locked] ∧
      locked.failedLoginAttempts = 5 ∧
      locked.accountLockedUntil = some (5 + 30 * 60 * 1000) ∧
      (∀ t6 pw a r0, t6 < 5 + 30 * 60 * 1000 →
        (AuthService.login eqVerify t6 a r0 "alice@example.com" pw st5).1 =
          .error ("Account is locked. Try again in " ++
            toString (ceilDiv (5 + 30 * 60 * 1000 - t6) 60000) ++ " minutes.")) :=
  C5_five_failures_lock_account eqVerify "alice@example.com" "bad" aliceUser 9
    "a1" "r1" "a2" "r2" "a3" "r3" "a4" "r4" "a5" "r5" 1 2 3 4 5
    rfl rfl rfl rfl (by decide)

/-! ### Claim C6 -/

/-- C6: a successful login — here one that also clears an expired lockout —
resets the failed-login counter to zero, clears the lockout-expiry, stamps
the last-login time, and a subsequent wrong-password attempt counts as
failure number 1, not a continuation of the previous count. -/
theorem C6_success_resets_counter (verify : String → String → Bool)
    (e good bad : String) (u : UserRec) (n L t t' : Nat) (a r a' r' : String)
    (he : u.email = e) (hst : u.status = .ACTIVE)
    (hlock : u.accountLockedUntil = some L) (hexp : ¬ t < L)
    (hv : verify good u.password = true) (hw : verify bad u.password = false) :
    (AuthService.login verify t a r e good (oneUserState u n)).1 =
      .ok { userId := u.id, email := u.email, role := u.role, status := u.status, accessToken := a, refreshToken := r } ∧
    (AuthService.login verify t a r e good (oneUserState u n)).2.users =
      [{ u with failedLoginAttempts := 0, accountLockedUntil := none, lastLogin := some t }] ∧
    (AuthService.login verify t' a' r' e bad
        (AuthService.login verify t a r e good (oneUserState u n)).2).1 =
      .error "Invalid credentials" ∧
    (AuthService.login verify t' a' r' e bad
        (AuthService.login verify t a r e good (oneUserState u n)).2).2.users =
      [{ u with failedLoginAttempts := 1, accountLockedUntil := none, lastLogin := some t }] := by
  have h1 := login_success_after_lock verify t a r e good (oneUserState u n) u L
    rfl he hst hlock hexp hv
  have c1 : (AuthService.login verify t a r e good (oneUserState u n)).2 =
      afterLoginState u n t r := by
    rw [h1]
    rfl
  have h2 := login_wrong_small verify t' a' r' e bad (afterLoginState u n t r)
    { u with failedLoginAttempts := 0, accountLockedUntil := none, lastLogin := some t }
    rfl he hst rfl hw (show 0 + 1 < 5 by omega)
  refine ⟨?_, ?_, ?_, ?_⟩
  · rw [h1]
  · rw [c1]
    rfl
  · rw [c1, h2]
  · rw [c1, h2]

/-- C6 witness: the reset behavior evaluated at a concrete identity with
four failed attempts and an expired lockout, logging in correctly at time
100 and then wrongly at time 200. -/
theorem C6_witness :
    (AuthService.login eqVerify 100 "a" "r" "alice@example.com" "hash-alice"
        (oneUserState aliceLocked4 9)).1 =
      .ok { userId := aliceLocked4.id, email := aliceLocked4.email,
            role := aliceLocked4.role, status := aliceLocked4.status,
            accessToken := "a", refreshToken := "r" } ∧
    (AuthService.login eqVerify 100 "a" "r" "alice@example.com" "hash-alice"
        (oneUserState aliceLocked4 9)).2.users =
      [{ aliceLocked4 with failedLoginAttempts := 0, accountLockedUntil := none, lastLogin := some 100 }] ∧
    (AuthService.login eqVerify 200 "a2" "r2" "alice@example.com" "oops"
        (AuthService.login eqVerify 100 "a" "r" "alice@example.com" "hash-alice"
          (oneUserState aliceLocked4 9)).2).1 =
      .error "Invalid credentials" ∧
    (AuthService.login eqVerify 200 "a2" "r2" "alice@example.com" "oops"
        (AuthService.login eqVerify 100 "a" "r" "alice@example.com" "hash-alice"
          (oneUserState aliceLocked4 9)).2).2.users =
      [{ aliceLocked4 with failedLoginAttempts := 1, accountLockedUntil := none, lastLogin := some 100 }] :=
  C6_success_resets_counter eqVerify "alice@example.com" "hash-alice" "oops"
    aliceLocked4 9 50 100 200 "a" "r" "a2" "r2"
    rfl rfl rfl (by decide) (by decide) (by decide)

end Meditech
